import Mathlib

/-!
# Verification of the ytmp3cc repository's resolution pipeline

Shallow embedding of the repository's three source files:
* `src/unnamed/part_000` — YouTube-MP3 API with two upstream strategies
  (`ytmp3free`, `alternativeService`) and a fallback resolver (`getMP3Info`);
  namespace `Part0`.
* `src/api/ytmp3.js` — ytdl/ffmpeg based API (`isValidYouTubeUrl`,
  `extractVideoId`, the `/api/download` streaming handler); namespace `YtApi`.
* `src/index.js` — film-catalog scraper (`/api/search`, `/api/movie`,
  `classifyLinkType`, `extractYear`) and a second `ytmp3free` variant;
  namespaces `Catalog` and `Idx`.

JavaScript strings are modelled as Lean `String`/`List Char` (code points;
all inputs of interest are ASCII, where JS UTF-16 code units and code points
coincide; `length` is modelled by an explicit UTF-16 length function).
JS regexes are modelled by faithful backtracking matchers specialised to the
concrete patterns in the source, preserving alternation order, greediness and
leftmost-match semantics.  Fallible upstream calls are modelled as
`Except String (Option _)` inputs (`.error` = thrown/network fault, `.ok none`
= falsy response body).
-/

/-! ## Character classes of the JS regexes -/

/-- JS `\s` (whitespace class): space, `\t\n\v\f\r`, NBSP, Ogham space,
general-punctuation spaces U+2000–U+200A, line/paragraph separator,
narrow NBSP, medium mathematical space, ideographic space, BOM. -/
def jsWhitespace (c : Char) : Bool :=
  decide (c.toNat = 9 ∨ c.toNat = 10 ∨ c.toNat = 11 ∨ c.toNat = 12 ∨
    c.toNat = 13 ∨ c.toNat = 32 ∨ c.toNat = 160 ∨ c.toNat = 0x1680 ∨
    (0x2000 ≤ c.toNat ∧ c.toNat ≤ 0x200a) ∨ c.toNat = 0x2028 ∨
    c.toNat = 0x2029 ∨ c.toNat = 0x202f ∨ c.toNat = 0x205f ∨
    c.toNat = 0x3000 ∨ c.toNat = 0xfeff)

/-- JS `\w` (word class): `[A-Za-z0-9_]`. -/
def isWordChar (c : Char) : Bool :=
  decide ((48 ≤ c.toNat ∧ c.toNat ≤ 57) ∨ (65 ≤ c.toNat ∧ c.toNat ≤ 90) ∨
    (97 ≤ c.toNat ∧ c.toNat ≤ 122) ∨ c.toNat = 95)

/-- The video-id class `[a-zA-Z0-9_-]` of `src/api/ytmp3.js` lines 16 and 22
(also `src/index.js` line 338). -/
def ytIdChar (c : Char) : Bool :=
  decide ((97 ≤ c.toNat ∧ c.toNat ≤ 122) ∨ (65 ≤ c.toNat ∧ c.toNat ≤ 90) ∨
    (48 ≤ c.toNat ∧ c.toNat ≤ 57) ∨ c.toNat = 95 ∨ c.toNat = 45)

/-- The capture class `[^"&?\/\s]` of `src/unnamed/part_000` line 48. -/
def p0CapChar (c : Char) : Bool :=
  !(decide (c.toNat = 34 ∨ c.toNat = 38 ∨ c.toNat = 63 ∨ c.toNat = 47) ||
    jsWhitespace c)

/-- JS line terminators, which regex `.` does not match. -/
def isLineTerm (c : Char) : Bool :=
  decide (c.toNat = 10 ∨ c.toNat = 13 ∨ c.toNat = 0x2028 ∨ c.toNat = 0x2029)

/-! ## Generic matcher building blocks -/

/-- Strip a literal pattern from the front of the input
(`none` if the input does not start with the pattern). -/
def stripPfx? : List Char → List Char → Option (List Char)
  | [], s => some s
  | _ :: _, [] => none
  | p :: ps, c :: cs => if p == c then stripPfx? ps cs else none

/-- First candidate remainder on which the capture function succeeds
(models regex backtracking over an ordered list of alternatives). -/
def firstSome (f : List Char → Option (List Char)) :
    List (List Char) → Option (List Char)
  | [] => none
  | c :: cs =>
    match f c with
    | some v => some v
    | none => firstSome f cs

/-! ## `src/api/ytmp3.js` — `extractVideoId` and `isValidYouTubeUrl`

`extractVideoId` (lines 21–25) searches for
`(?:youtube\.com\/watch\?v=|youtu\.be\/)([a-zA-Z0-9_-]{11})` and returns the
capture; `isValidYouTubeUrl` (lines 15–18) tests the same pattern anchored at
the start with optional `(https?:\/\/)?(www\.)?`. -/

/-- Capture `([a-zA-Z0-9_-]{11})`: exactly 11 class characters from the front. -/
def ytCap (s : List Char) : Option (List Char) :=
  if decide (11 ≤ s.length) && (s.take 11).all ytIdChar then
    some (s.take 11)
  else none

/-- The two alternatives `youtube\.com\/watch\?v=` and `youtu\.be\/`, in
regex order, as candidate remainders at one position. -/
def ytCandidates (s : List Char) : List (List Char) :=
  (match stripPfx? "youtube.com/watch?v=".data s with
   | some r => [r]
   | none => []) ++
  (match stripPfx? "youtu.be/".data s with
   | some r => [r]
   | none => [])

/-- One attempt of the `extractVideoId` regex at a fixed position. -/
def ytTryAt (s : List Char) : Option (List Char) :=
  firstSome ytCap (ytCandidates s)

/-- Leftmost-match scan of the `extractVideoId` regex. -/
def ytScan : List Char → Option (List Char)
  | [] => none
  | c :: rest =>
    match ytTryAt (c :: rest) with
    | some v => some v
    | none => ytScan rest

namespace YtApi

/-- `src/api/ytmp3.js` lines 21–25: `url.match(regex)`, returning the first
capture group or `null`. -/
def extractVideoId (url : String) : Option String :=
  (ytScan url.data).map (fun l => String.mk l)

end YtApi

/-- Tail check of the `isValidYouTubeUrl` regex after the host part:
at least 11 characters follow and the first 11 are id characters. -/
def ivTail (s : List Char) : Bool :=
  decide (11 ≤ s.length) && (s.take 11).all ytIdChar

/-- Remainders after the optional `(https?:\/\/)?`
(branch order `https://`, `http://`, absent). -/
def ivAfterScheme (s : List Char) : List (List Char) :=
  (match stripPfx? "https://".data s with
   | some r => [r]
   | none => []) ++
  (match stripPfx? "http://".data s with
   | some r => [r]
   | none => []) ++ [s]

/-- Remainders after the optional `(www\.)?`. -/
def ivAfterWww (s : List Char) : List (List Char) :=
  (match stripPfx? "www.".data s with
   | some r => [r]
   | none => []) ++ [s]

/-- Remainders after the host alternation
`(youtube\.com\/watch\?v=|youtu\.be\/)`. -/
def ivAfterHost (s : List Char) : List (List Char) :=
  (match stripPfx? "youtube.com/watch?v=".data s with
   | some r => [r]
   | none => []) ++
  (match stripPfx? "youtu.be/".data s with
   | some r => [r]
   | none => [])

/-- `.test` of the anchored validation regex: some branch of the optional
scheme/www groups and the host alternation is followed by 11 id characters. -/
def ivMatches (s : List Char) : Bool :=
  (((ivAfterScheme s).flatMap ivAfterWww).flatMap ivAfterHost).any ivTail

namespace YtApi

/-- `src/api/ytmp3.js` lines 15–18 (identical to the inline `youtubeRegex`
of `src/index.js` lines 338 and 375): anchored `.test` of
`^(https?:\/\/)?(www\.)?(youtube\.com\/watch\?v=|youtu\.be\/)([a-zA-Z0-9_-]{11})`. -/
def isValidYouTubeUrl (url : String) : Bool :=
  ivMatches url.data

end YtApi

namespace Idx

/-- `src/index.js` line 338/375: the same anchored validation regex,
applied with `.test` in the `/api/mp3` handlers. -/
def youtubeRegexTest (url : String) : Bool :=
  ivMatches url.data

end Idx

/-! ## `src/unnamed/part_000` — `extractVideoId` (lines 47–51)

Pattern:
`(?:youtube\.com\/(?:[^\/]+\/.+\/|(?:v|e(?:mbed)?)\/|.*[?&]v=)|youtu\.be\/)([^"&?\/\s]{11})`.
The three inner alternatives after `youtube.com/` are modelled in regex
order with faithful greedy backtracking:
* B1 `[^\/]+\/.+\/`  — a forced maximal non-slash run, `/`, then every
  possible `.+\/` split, longest (rightmost slash) first;
* B2 `(?:v|e(?:mbed)?)\/` — `v/`, then `embed/`, then `e/`;
* B3 `.*[?&]v=` — every occurrence of `?v=`/`&v=` reachable without `.`
  crossing a line terminator, rightmost (greedy) first. -/

/-- Consume `[^\/]*\/`: skip to just past the first `/`. -/
def b1AfterFirst : List Char → Option (List Char)
  | [] => none
  | c :: rest => if c == '/' then some rest else b1AfterFirst rest

/-- Consume `[^\/]+\/`: at least one non-slash character, then up to and
past the first `/`. -/
def b1ScanX : List Char → Option (List Char)
  | [] => none
  | c :: rest => if c == '/' then none else b1AfterFirst rest

/-- Remainders after `.*\/` (dot not matching line terminators), greedy:
rightmost slash first. -/
def dotStarSlashCands : List Char → List (List Char)
  | [] => []
  | c :: rest =>
    if c == '/' then dotStarSlashCands rest ++ [rest]
    else if isLineTerm c then []
    else dotStarSlashCands rest

/-- Remainders after `.+\/`, greedy. -/
def dotPlusSlashCands : List Char → List (List Char)
  | [] => []
  | c :: rest => if isLineTerm c then [] else dotStarSlashCands rest

/-- Candidate remainders of alternative B1 `[^\/]+\/.+\/`. -/
def b1candidates (s : List Char) : List (List Char) :=
  match b1ScanX s with
  | some r => dotPlusSlashCands r
  | none => []

/-- Candidate remainders of alternative B2 `(?:v|e(?:mbed)?)\/`
(in regex order: `v/`, `embed/`, `e/`). -/
def b2candidates (s : List Char) : List (List Char) :=
  (match stripPfx? ['v', '/'] s with
   | some r => [r]
   | none => []) ++
  (match stripPfx? "embed/".data s with
   | some r => [r]
   | none => []) ++
  (match stripPfx? ['e', '/'] s with
   | some r => [r]
   | none => [])

/-- Strip `?v=` or `&v=` (`[?&]v=`). -/
def qvStrip (s : List Char) : Option (List Char) :=
  match stripPfx? ['?', 'v', '='] s with
  | some r => some r
  | none => stripPfx? ['&', 'v', '='] s

/-- Candidate remainders of alternative B3 `.*[?&]v=`, greedy:
rightmost occurrence first; `.` cannot cross a line terminator. -/
def b3candidates : List Char → List (List Char)
  | [] => []
  | c :: rest =>
    let here := match qvStrip (c :: rest) with
      | some r => [r]
      | none => []
    if isLineTerm c then here else b3candidates rest ++ here

/-- Capture `([^"&?\/\s]{11})`. -/
def p0Cap (s : List Char) : Option (List Char) :=
  if decide (11 ≤ s.length) && (s.take 11).all p0CapChar then
    some (s.take 11)
  else none

/-- All candidate remainders of the part_000 prefix alternation at one
position, in regex backtracking order. -/
def p0candidates (s : List Char) : List (List Char) :=
  (match stripPfx? "youtube.com/".data s with
   | some r => b1candidates r ++ b2candidates r ++ b3candidates r
   | none => []) ++
  (match stripPfx? "youtu.be/".data s with
   | some r => [r]
   | none => [])

/-- One attempt of the part_000 `extractVideoId` regex at a fixed position. -/
def p0TryAt (s : List Char) : Option (List Char) :=
  firstSome p0Cap (p0candidates s)

/-- Leftmost-match scan of the part_000 `extractVideoId` regex. -/
def p0Scan : List Char → Option (List Char)
  | [] => none
  | c :: rest =>
    match p0TryAt (c :: rest) with
    | some v => some v
    | none => p0Scan rest

namespace Part0

/-- `src/unnamed/part_000` lines 47–51: `url.match(regex)`, first capture
group or `null`. -/
def extractVideoId (url : String) : Option String :=
  (p0Scan url.data).map (fun l => String.mk l)

end Part0

/-! Sanity checks of the matchers on concrete URLs. -/

example : YtApi.extractVideoId "https://www.youtube.com/watch?v=dQw4w9WgXcQ" =
    some "dQw4w9WgXcQ" := by decide
example : YtApi.extractVideoId "https://youtu.be/ArkDQvI_OPE" =
    some "ArkDQvI_OPE" := by decide
example : YtApi.extractVideoId "https://www.youtube.com/embed/dQw4w9WgXcQ" =
    none := by decide
example : YtApi.extractVideoId "https://www.youtube.com/watch?v=short" =
    none := by decide
example : YtApi.isValidYouTubeUrl "youtu.be/dQw4w9WgXcQ" = true := by decide
example : YtApi.isValidYouTubeUrl "https://www.youtube.com/embed/dQw4w9WgXcQ" =
    false := by decide
example : Part0.extractVideoId "https://www.youtube.com/watch?v=dQw4w9WgXcQ" =
    some "dQw4w9WgXcQ" := by decide
example : Part0.extractVideoId "https://www.youtube.com/embed/dQw4w9WgXcQ" =
    some "dQw4w9WgXcQ" := by decide
example : Part0.extractVideoId "https://youtu.be/ArkDQvI_OPE" =
    some "ArkDQvI_OPE" := by decide
example : Part0.extractVideoId "https://www.youtube.com/v/dQw4w9WgXcQ" =
    some "dQw4w9WgXcQ" := by decide
example : Part0.extractVideoId "not a url" = none := by decide
example : Part0.extractVideoId "https://www.youtube.com/user/x/videos/dQw4w9WgXcQ" =
    some "dQw4w9WgXcQ" := by decide
example : YtApi.extractVideoId "https://www.youtube.com/watch?v=dQw4w9WgXcQ123" =
    some "dQw4w9WgXcQ" := by decide

/-! ## JS truthiness and string helpers -/

/-- JS truthiness of a string: non-empty. -/
def truthyStr (s : String) : Bool :=
  !s.data.isEmpty

/-- JS truthiness of a possibly-absent string field
(`undefined`/`null` and `""` are falsy). -/
def truthyOpt (v : Option String) : Bool :=
  match v with
  | none => false
  | some s => truthyStr s

/-- Template-literal interpolation of a nullable value
(`${x}` prints `null` for an absent value). -/
def jsShow (v : Option String) : String :=
  match v with
  | none => "null"
  | some s => s

/-! ## `src/unnamed/part_000` — the two strategies and the resolver -/

/-- Raw JSON body of the `ytmp3free.cc` upstream, as consumed by the code
(fields `title`, `link`, `img`, `duration`); absent/falsy fields are `none`
or `some ""`. -/
structure RawData where
  title : Option String := none
  link : Option String := none
  img : Option String := none
  duration : Option String := none
  deriving DecidableEq, Repr

/-- Raw JSON body of the `api.vevioz.com` upstream (field `url`). -/
structure AltRaw where
  url : Option String := none
  deriving DecidableEq, Repr

/-- The result-object shape returned by the part_000 strategy functions and
resolver (a JS object with these optional fields plus the `status` flag). -/
structure MP3Result where
  status : Bool
  title : Option String := none
  thumb : Option String := none
  duration : Option String := none
  mp3 : Option String := none
  source : Option String := none
  videoId : Option String := none
  msg : Option String := none
  error : Option String := none
  rawData : Option (Option RawData) := none
  note : Option String := none
  deriving DecidableEq, Repr

namespace Part0

/-- `src/unnamed/part_000` lines 54–101 (`ytmp3free`): the primary strategy.
Inputs: the result of `extractVideoId(url)` and the upstream call outcome
(`.error e` = axios threw with message `e`; `.ok none` = falsy response body;
`.ok (some d)` = JSON body `d`). -/
def ytmp3free (vid? : Option String) (up : Except String (Option RawData)) :
    MP3Result :=
  match vid? with
  | none => { status := false, msg := some "Invalid YouTube URL" }
  | some vid =>
    match up with
    | .error e =>
      { status := false, error := some e,
        msg := some "Service temporarily unavailable" }
    | .ok data? =>
      match data? with
      | none =>
        { status := false, msg := some "No data received from service",
          rawData := some none }
      | some d =>
        if truthyOpt d.title && truthyOpt d.link then
          { status := true, title := d.title,
            thumb := if truthyOpt d.img then d.img
              else some ("https://i.ytimg.com/vi/" ++ vid ++ "/maxresdefault.jpg"),
            duration := d.duration, mp3 := d.link,
            source := some "ytmp3free.cc", videoId := some vid }
        else
          { status := false, msg := some "No data received from service",
            rawData := some (some d) }

/-- `src/unnamed/part_000` lines 104–131 (`alternativeService`): the fallback
strategy.  Note the code does not null-check `extractVideoId`; a `null` id is
interpolated as the string `"null"`. -/
def alternativeService (vid? : Option String)
    (up : Except String (Option AltRaw)) : MP3Result :=
  match up with
  | .error _ => { status := false, msg := some "Alternative service error" }
  | .ok data? =>
    match data? with
    | some d =>
      if truthyOpt d.url then
        { status := true,
          title := some ("YouTube Video " ++ jsShow vid?),
          thumb := some ("https://i.ytimg.com/vi/" ++ jsShow vid? ++
            "/maxresdefault.jpg"),
          mp3 := d.url, source := some "vevioz.com", videoId := vid? }
      else { status := false, msg := some "Alternative service failed" }
    | none => { status := false, msg := some "Alternative service failed" }

/-- `src/unnamed/part_000` lines 134–145 (`getMP3Info`): try the primary
strategy; if its `status` is falsy, replace the result with the alternative
strategy's result.  `r1`/`r2` are the outcomes the two strategy calls would
produce (the second call happens only when the first fails). -/
def getMP3Info (r1 r2 : MP3Result) : MP3Result :=
  if r1.status then r1 else r2

/-- Control-flow trace of `getMP3Info`: the strategy results observed, in
attempt order (the alternative is attempted only after the primary fails). -/
def getMP3InfoAttempts (r1 r2 : MP3Result) : List MP3Result :=
  if r1.status then [r1] else [r1, r2]

/-- `src/unnamed/part_000` lines 180–184: the JSON body the `/api/mp3`
handler sends (HTTP 500) when resolution failed — the resolver's result
spread together with `videoId` and a fixed `note`. -/
def apiMp3FailureBody (result : MP3Result) (videoId : String) : MP3Result :=
  { result with
    videoId := some videoId
    note := some "The service might be temporarily down. Please try again later." }

end Part0

/-- The failure reasons actually carried by one result object
(its `error` and `msg` fields, in field order). -/
def failureReasons (r : MP3Result) : List String :=
  (match r.error with | some e => [e] | none => []) ++
  (match r.msg with | some m => [m] | none => [])

namespace Idx

/-- `src/index.js` lines 293–323: the second `ytmp3free` variant (no video-id
extraction; the URL itself is interpolated into the upstream endpoint, and a
missing thumbnail is passed through without a default). -/
def ytmp3free (up : Except String (Option RawData)) : MP3Result :=
  match up with
  | .error e =>
    { status := false, error := some e,
      msg := some "Service temporarily unavailable. Please try again later." }
  | .ok data? =>
    match data? with
    | none => { status := false, msg := some "Scrape failed or invalid YouTube URL" }
    | some d =>
      if truthyOpt d.title && truthyOpt d.link then
        { status := true, title := d.title, thumb := d.img,
          duration := d.duration, mp3 := d.link, source := some "ytmp3free.cc" }
      else { status := false, msg := some "Scrape failed or invalid YouTube URL" }

end Idx

example :
    Part0.getMP3Info
      (Part0.ytmp3free (some "dQw4w9WgXcQ") (.ok none))
      (Part0.alternativeService (some "dQw4w9WgXcQ") (.ok (some ⟨some "https://cdn/x.mp3"⟩))) =
    Part0.alternativeService (some "dQw4w9WgXcQ") (.ok (some ⟨some "https://cdn/x.mp3"⟩)) := by
  decide

example :
    (Part0.ytmp3free (some "a_b-c123XYZ")
      (.ok (some { title := some "T", link := some "L" }))).thumb =
    some "https://i.ytimg.com/vi/a_b-c123XYZ/maxresdefault.jpg" := by decide

/-! ## More JS string primitives -/

/-- JS `String.prototype.trim`: strip leading/trailing whitespace
(JS WhiteSpace ∪ LineTerminator, all inside `jsWhitespace`). -/
def jsTrim (s : String) : String :=
  String.mk (((s.data.dropWhile jsWhitespace).reverse.dropWhile
    jsWhitespace).reverse)

/-- JS `String.prototype.length`: UTF-16 code units
(characters above U+FFFF count twice). -/
def utf16Len (s : String) : Nat :=
  s.data.foldl (fun n c => n + (if c.toNat < 0x10000 then 1 else 2)) 0

/-- ASCII lower-casing of one character (`String.prototype.toLowerCase`,
restricted to the ASCII range all source comparisons use). -/
def jsLowerChar (c : Char) : Char :=
  if 65 ≤ c.toNat ∧ c.toNat ≤ 90 then Char.ofNat (c.toNat + 32) else c

/-- JS `String.prototype.toLowerCase` (ASCII model). -/
def jsToLower (s : String) : String :=
  String.mk (s.data.map jsLowerChar)

/-- Substring scan: does `needle` occur (contiguously) at any position? -/
def inclScan (needle : List Char) : List Char → Bool
  | [] => needle.isEmpty
  | c :: rest => needle.isPrefixOf (c :: rest) || inclScan needle rest

/-- JS `String.prototype.includes`: substring containment. -/
def jsIncludes (needle s : String) : Bool :=
  inclScan needle.data s.data

/-- JS `String.prototype.startsWith`. -/
def jsStartsWith (needle s : String) : Bool :=
  needle.data.isPrefixOf s.data

/-! ## `src/api/ytmp3.js` — filename sanitization (lines 73, 126, 225)

`info.videoDetails.title.replace(/[^\w\s]/gi, '')`: every character outside
the word/whitespace classes is replaced by the empty string.  The recursion
mirrors the global replace, character by character. -/

/-- One global-replace pass of `/[^\w\s]/gi` with the empty replacement. -/
def replaceNonWordSpace : List Char → List Char
  | [] => []
  | c :: rest =>
    if isWordChar c || jsWhitespace c then c :: replaceNonWordSpace rest
    else replaceNonWordSpace rest

namespace YtApi

/-- The sanitized download filename stem used by `/api/download` and
`/api/download-mp3` (`title.replace(/[^\w\s]/gi, '')`). -/
def sanitizeTitle (title : String) : String :=
  String.mk (replaceNonWordSpace title.data)

end YtApi

/-! ## `src/index.js` — catalog scraping (`/api/search`, `/api/movie`) -/

/-- One hyperlink of the scraped document: its `href` attribute
(`none` when absent) and its visible text (`$element.text()`). -/
structure Anchor where
  href : Option String
  text : String
  deriving DecidableEq, Repr

/-- One DOM element matched by the primary selector set
`.post-box, .movie-item, article, .post`, described by what the field
selectors find inside it: the first `h2 a, h3 a, .title a, .entry-title a`
element's text and `href`, the first `img` element's `src`, and the first
`.entry-content, .excerpt, .description` element's text. -/
structure SearchBlock where
  titleText : String
  linkHref : Option String
  imageSrc : Option String
  descText : String
  deriving DecidableEq, Repr

/-- A scraped search document: the primary-selector matches and all
hyperlinks, in document order. -/
structure SearchDoc where
  blocks : List SearchBlock
  anchors : List Anchor
  deriving DecidableEq, Repr

/-- One entry of the `movies` array built by `/api/search`. -/
structure Movie where
  title : String
  link : String
  image : Option String
  description : String
  year : Option String
  deriving DecidableEq, Repr

/-- Provenance marker of an extracted block (spec §4.4: `low` iff the result
came from the secondary link-mining pass). -/
inductive Confidence where
  | high
  | low
  deriving DecidableEq, Repr

namespace Catalog

/-- `src/index.js` line 14. -/
def baseUrl : String := "https://sinhalasub.lk"

/-- `src/index.js` lines 219–222 (`extractYear`): first match of
`/(19|20)\d{2}/` in the title, or `null`. -/
def yearTryAt : List Char → Option String
  | c1 :: c2 :: c3 :: c4 :: _ =>
    if ((c1 == '1' && c2 == '9') || (c1 == '2' && c2 == '0')) &&
        (decide (48 ≤ c3.toNat ∧ c3.toNat ≤ 57) &&
         decide (48 ≤ c4.toNat ∧ c4.toNat ≤ 57)) then
      some (String.mk [c1, c2, c3, c4])
    else none
  | _ => none

/-- Leftmost-match scan for `extractYear`. -/
def yearScan : List Char → Option String
  | [] => none
  | c :: rest =>
    match yearTryAt (c :: rest) with
    | some y => some y
    | none => yearScan rest

/-- `src/index.js` lines 219–222. -/
def extractYear (title : String) : Option String :=
  yearScan title.data

/-- `src/index.js` lines 42–60: the primary pass of the search scraper.
A block is kept only if both its trimmed title and its `href` are truthy. -/
def primaryPass (blocks : List SearchBlock) : List Movie :=
  blocks.filterMap fun b =>
    let title := jsTrim b.titleText
    match b.linkHref with
    | none => none
    | some link =>
      if truthyStr title && truthyStr link then
        some { title := title,
               link := if jsStartsWith "http" link then link else baseUrl ++ link,
               image := if truthyOpt b.imageSrc then b.imageSrc else none,
               description := jsTrim b.descText,
               year := extractYear title }
      else none

/-- `src/index.js` lines 63–79: the secondary pass over every hyperlink,
run only when the primary pass found nothing.  A link qualifies when its
`href` and trimmed text are truthy, the `href` contains `/movie/`, and the
text is strictly longer than 5 UTF-16 units. -/
def secondaryPass (anchors : List Anchor) : List Movie :=
  anchors.filterMap fun a =>
    match a.href with
    | none => none
    | some href =>
      let text := jsTrim a.text
      if truthyStr href && truthyStr text && jsIncludes "/movie/" href &&
          decide (5 < utf16Len text) then
        some { title := text,
               link := if jsStartsWith "http" href then href else baseUrl ++ href,
               image := none,
               description := "",
               year := extractYear text }
      else none

/-- `src/index.js` lines 39–79: the `movies` array of `/api/search`
(secondary pass exactly when the primary pass yields zero blocks). -/
def searchMovies (doc : SearchDoc) : List Movie :=
  let primary := primaryPass doc.blocks
  if primary.isEmpty then secondaryPass doc.anchors else primary

/-- `searchMovies` with each block tagged by the pass that produced it
(spec §4.4's confidence marker: `low` for the heuristic secondary pass). -/
def searchMoviesTagged (doc : SearchDoc) : List (Movie × Confidence) :=
  let primary := primaryPass doc.blocks
  if primary.isEmpty then
    (secondaryPass doc.anchors).map (fun m => (m, Confidence.low))
  else primary.map (fun m => (m, Confidence.high))

/-- `src/index.js` lines 230–237 (`classifyLinkType`): host precedence
first, then text-based detection, else `download`. -/
def classifyLinkType (text url : String) : String :=
  if jsIncludes "drive.google.com" url then "google_drive"
  else if jsIncludes "mega.nz" url then "mega"
  else if jsIncludes "mediafire.com" url then "mediafire"
  else if jsIncludes "dropbox.com" url then "dropbox"
  else if jsIncludes "watch" text then "stream"
  else "download"

/-- One entry of `movie.downloadLinks` in `/api/movie`. -/
structure DownloadLink where
  provider : String
  url : String
  type : String
  deriving DecidableEq, Repr

/-- The qualification test of `src/index.js` lines 145–147 on the lowered,
trimmed link text and the raw `href`. -/
def linkQualCond (text href : String) : Bool :=
  jsIncludes "download" text || jsIncludes "watch" text ||
  jsIncludes "drive.google.com" href || jsIncludes "mega.nz" href ||
  jsIncludes "mediafire.com" href || jsIncludes "dropbox" href

/-- Whether one anchor contributes a download link (truthy `href` plus the
text/host test). -/
def linkQualifies (a : Anchor) : Bool :=
  match a.href with
  | none => false
  | some href => truthyStr href && linkQualCond (jsToLower (jsTrim a.text)) href

/-- The `downloadLinks` entry one anchor contributes (`none` when the anchor
does not qualify): the body of the `$('a').each` loop of `src/index.js`
lines 140–155. -/
def linkEntry? (a : Anchor) : Option DownloadLink :=
  match a.href with
  | none => none
  | some href =>
    let text := jsToLower (jsTrim a.text)
    if truthyStr href && linkQualCond text href then
      some { provider := if truthyStr text then text else "Download",
             url := href,
             type := classifyLinkType text href }
    else none

/-- `src/index.js` lines 140–155: the `downloadLinks` array of `/api/movie` —
one push per qualifying anchor, in document order, with no de-duplication. -/
def extractDownloadLinks (anchors : List Anchor) : List DownloadLink :=
  anchors.filterMap linkEntry?

end Catalog

example : YtApi.sanitizeTitle "Test: Movie? #1" = "Test Movie 1" := by decide
example : Catalog.classifyLinkType "watch now" "https://drive.google.com/x" =
    "google_drive" := by decide
example : Catalog.extractYear "Avengers (2019) Sinhala Sub" = some "2019" := by
  decide
example :
    Catalog.searchMovies ⟨[], [⟨some "/movie/abc", "Abcdef"⟩]⟩ =
      [{ title := "Abcdef", link := "https://sinhalasub.lk/movie/abc",
         image := none, description := "", year := none }] := by decide
example : Catalog.searchMovies ⟨[], [⟨some "/movie/abc", "Abcde"⟩]⟩ = [] := by
  decide

/-! ## `src/api/ytmp3.js` — stream delivery (`/api/download`, lines 59–110;
`/api/download-mp3`, lines 113–157)

Both handlers stage the `Content-Disposition`/`Content-Type` headers with
`setHeader` (headers are flushed only with the first piped body chunk) and
then pipe the source/transcode stream into the response.  Their error
callbacks are identical in shape:

```
.on('error', (err) => { console.error(...);
  if (!res.headersSent) { res.status(500).json({ error: ... }); } })
```

The post-pipe phase is modelled as a state machine over the event sequence
the stream emits: `chunk` (one non-empty transcoded chunk written to the
response) and `fail` (an ffmpeg/source-stream error).  `res.headersSent`
becomes true once a JSON error was sent or the first body chunk was piped. -/

/-- An event of the delivery phase: one body chunk piped to the response,
or a source/transcode error firing the error callback. -/
inductive StreamEvent where
  | chunk
  | fail
  deriving DecidableEq, Repr

/-- The response state: body chunks written, whether a structured JSON error
payload was sent, and whether the delivery has been aborted. -/
structure ResState where
  chunksSent : Nat
  jsonErrorSent : Bool
  aborted : Bool
  deriving DecidableEq, Repr

namespace Deliver

/-- `res.headersSent`: headers are committed by `res.status(500).json(...)`
or by the first piped chunk (`setHeader` alone does not send them). -/
def headersSent (st : ResState) : Bool :=
  st.jsonErrorSent || decide (0 < st.chunksSent)

/-- One step of the delivery phase.  A chunk is written unless the delivery
was aborted; the error callback sends a structured JSON error only when
`res.headersSent` is still false (otherwise it only logs) and the stream
terminates either way. -/
def step (st : ResState) (e : StreamEvent) : ResState :=
  match e with
  | .chunk => if st.aborted then st else { st with chunksSent := st.chunksSent + 1 }
  | .fail =>
    if st.aborted then st
    else if headersSent st then { st with aborted := true }
    else { st with jsonErrorSent := true, aborted := true }

/-- The delivery phase from the initial response state (headers staged but
not sent, no body bytes written). -/
def run (events : List StreamEvent) : ResState :=
  events.foldl step ⟨0, false, false⟩

end Deliver

example : Deliver.run [.fail, .chunk, .chunk] = ⟨0, true, true⟩ := by decide
example : Deliver.run [.chunk, .chunk, .fail, .chunk] = ⟨2, false, true⟩ := by
  decide

/-! ## Helper lemmas: character classes -/

lemma ytIdChar_facts {c : Char} (h : ytIdChar c = true) :
    (c == '/') = false ∧ ('?' == c) = false ∧ ('&' == c) = false ∧
    isLineTerm c = false ∧ p0CapChar c = true := by
  refine ⟨?_, ?_, ?_, ?_, ?_⟩
  · rw [beq_eq_false_iff_ne]
    intro hc; subst hc; exact absurd h (by decide)
  · rw [beq_eq_false_iff_ne]
    intro hc; subst hc; exact absurd h (by decide)
  · rw [beq_eq_false_iff_ne]
    intro hc; subst hc; exact absurd h (by decide)
  · simp only [ytIdChar, decide_eq_true_eq] at h
    simp only [isLineTerm, decide_eq_false_iff_not]
    omega
  · simp only [ytIdChar, decide_eq_true_eq] at h
    simp only [p0CapChar, jsWhitespace, Bool.not_eq_true', Bool.or_eq_false_iff,
      decide_eq_false_iff_not]
    omega

lemma stripPfx?_some {pat : List Char} :
    ∀ {l r : List Char}, stripPfx? pat l = some r → l = pat ++ r := by
  induction pat with
  | nil =>
    intro l r h
    simp only [stripPfx?, Option.some.injEq] at h
    simp [h]
  | cons p ps ih =>
    intro l r h
    cases l with
    | nil => simp [stripPfx?] at h
    | cons c cs =>
      simp only [stripPfx?] at h
      by_cases hp : (p == c) = true
      · rw [if_pos hp] at h
        have hpc : p = c := by rwa [beq_iff_eq] at hp
        subst hpc
        rw [List.cons_append, ih h]
      · rw [if_neg hp] at h
        exact absurd h (by simp)

/-! ## C7 — filename sanitization -/

lemma replaceNonWordSpace_eq_filter (l : List Char) :
    replaceNonWordSpace l = l.filter (fun c => isWordChar c || jsWhitespace c) := by
  induction l with
  | nil => rfl
  | cons c rest ih =>
    cases hb : (isWordChar c || jsWhitespace c) with
    | true => simp [replaceNonWordSpace, List.filter_cons, hb, ih]
    | false => simp [replaceNonWordSpace, List.filter_cons, hb, ih]

/-- C7: filename sanitization (`title.replace(/[^\w\s]/gi, '')` in
`src/api/ytmp3.js` lines 73/126) removes exactly the characters outside the
word and whitespace classes, keeping the remaining characters (including the
spacing) in order; in particular `"Test: Movie? #1"` sanitizes to
`"Test Movie 1"`. -/
theorem claim_C7_filename_sanitization :
    (∀ s : String, (YtApi.sanitizeTitle s).data =
      s.data.filter (fun c => isWordChar c || jsWhitespace c)) ∧
    YtApi.sanitizeTitle "Test: Movie? #1" = "Test Movie 1" := by
  constructor
  · intro s
    simpa [YtApi.sanitizeTitle] using replaceNonWordSpace_eq_filter s.data
  · decide

/-! ## C9 — stream delivery error handling -/

lemma Deliver.foldl_aborted (evs : List StreamEvent) (st : ResState)
    (h : st.aborted = true) : evs.foldl Deliver.step st = st := by
  induction evs with
  | nil => rfl
  | cons e rest ih =>
    cases e with
    | chunk => simpa [List.foldl_cons, Deliver.step, h] using ih
    | fail => simpa [List.foldl_cons, Deliver.step, h] using ih

lemma Deliver.foldl_chunks (pre : List StreamEvent) :
    ∀ k : Nat, StreamEvent.fail ∉ pre →
      pre.foldl Deliver.step ⟨k, false, false⟩ = ⟨k + pre.length, false, false⟩ := by
  induction pre with
  | nil => intro k _; simp
  | cons e rest ih =>
    intro k h
    cases e with
    | fail => exact absurd (List.mem_cons_self _ _) h
    | chunk =>
      have hrest : StreamEvent.fail ∉ rest := fun hm => h (List.mem_cons_of_mem _ hm)
      calc (StreamEvent.chunk :: rest).foldl Deliver.step ⟨k, false, false⟩ =
            rest.foldl Deliver.step ⟨k + 1, false, false⟩ := by
              simp [List.foldl_cons, Deliver.step]
        _ = ⟨k + 1 + rest.length, false, false⟩ := ih (k + 1) hrest
        _ = ⟨k + (rest.length + 1), false, false⟩ := by
              congr 1
              omega
        _ = ⟨k + (StreamEvent.chunk :: rest).length, false, false⟩ := by
              simp

/-- C9: in the `/api/download` and `/api/download-mp3` delivery phase, a
source/transcode failure occurring before any body chunk has been written
produces the structured JSON error response, while a failure occurring after
at least one chunk never produces an error payload — the stream is simply
aborted (and no further chunks are written), the failure being only logged. -/
theorem claim_C9_stream_failure_contract (pre post : List StreamEvent)
    (hf : StreamEvent.fail ∉ pre) :
    (StreamEvent.chunk ∉ pre →
      (Deliver.run (pre ++ StreamEvent.fail :: post)).jsonErrorSent = true) ∧
    (StreamEvent.chunk ∈ pre →
      (Deliver.run (pre ++ StreamEvent.fail :: post)).jsonErrorSent = false) ∧
    (Deliver.run (pre ++ StreamEvent.fail :: post)).aborted = true ∧
    (Deliver.run (pre ++ StreamEvent.fail :: post)).chunksSent = pre.length := by
  have hrun : Deliver.run (pre ++ StreamEvent.fail :: post) =
      ⟨pre.length, pre.isEmpty, true⟩ := by
    unfold Deliver.run
    rw [List.foldl_append]
    have h0 := Deliver.foldl_chunks pre 0 hf
    rw [Nat.zero_add] at h0
    rw [h0, List.foldl_cons]
    cases pre with
    | nil =>
      simp only [List.length_nil, List.isEmpty_nil]
      have hstep : Deliver.step ⟨0, false, false⟩ StreamEvent.fail =
          ⟨0, true, true⟩ := by decide
      rw [hstep]
      exact Deliver.foldl_aborted post _ rfl
    | cons e rest =>
      simp only [List.length_cons, List.isEmpty_cons]
      have hstep : Deliver.step ⟨rest.length + 1, false, false⟩ StreamEvent.fail =
          ⟨rest.length + 1, false, true⟩ := by
        simp [Deliver.step, Deliver.headersSent]
      rw [hstep]
      simpa using Deliver.foldl_aborted post _ rfl
  rw [hrun]
  refine ⟨?_, ?_, rfl, rfl⟩
  · intro hnc
    have : pre = [] := by
      cases pre with
      | nil => rfl
      | cons e rest =>
        cases e with
        | chunk => exact absurd (List.mem_cons_self _ _) hnc
        | fail => exact absurd (List.mem_cons_self _ _) hf
    simp [this]
  · intro hc
    have : pre ≠ [] := by
      intro hnil
      rw [hnil] at hc
      simp at hc
    simp [List.isEmpty_iff, this]

/-- Witness for C9 at a concrete event trace (one chunk, then a failure,
then a late chunk). -/
theorem claim_C9_stream_failure_contract_witness :
    (Deliver.run [StreamEvent.chunk, StreamEvent.fail, StreamEvent.chunk]).jsonErrorSent = false ∧
    (Deliver.run [StreamEvent.chunk, StreamEvent.fail, StreamEvent.chunk]).aborted = true ∧
    (Deliver.run [StreamEvent.chunk, StreamEvent.fail, StreamEvent.chunk]).chunksSent = 1 := by
  have h := claim_C9_stream_failure_contract [StreamEvent.chunk]
    [StreamEvent.chunk] (by decide)
  exact ⟨h.2.1 (by decide), h.2.2.1, h.2.2.2⟩

/-! ## C3 — fallback resolution with a failing primary -/

/-- C3: when the primary strategy's result is a failure and the alternative
strategy's result is a success, `getMP3Info` returns the alternative's
result, both strategies (and only they) are attempted in order, and exactly
one failed attempt is observed — the primary's. -/
theorem claim_C3_fallback_success (r1 r2 : MP3Result)
    (h1 : r1.status = false) (h2 : r2.status = true) :
    Part0.getMP3Info r1 r2 = r2 ∧
    Part0.getMP3InfoAttempts r1 r2 = [r1, r2] ∧
    (Part0.getMP3InfoAttempts r1 r2).filter (fun r => !r.status) = [r1] := by
  refine ⟨?_, ?_, ?_⟩
  · simp [Part0.getMP3Info, h1]
  · simp [Part0.getMP3InfoAttempts, h1]
  · simp [Part0.getMP3InfoAttempts, List.filter_cons, h1, h2]

/-- Witness for C3: the primary fails on an invalid URL, the alternative
succeeds with a concrete MP3 link. -/
theorem claim_C3_fallback_success_witness :
    Part0.getMP3Info (Part0.ytmp3free none (Except.ok none))
        (Part0.alternativeService (some "dQw4w9WgXcQ")
          (Except.ok (some { url := some "https://cdn/x.mp3" }))) =
      Part0.alternativeService (some "dQw4w9WgXcQ")
        (Except.ok (some { url := some "https://cdn/x.mp3" })) ∧
    Part0.getMP3InfoAttempts (Part0.ytmp3free none (Except.ok none))
        (Part0.alternativeService (some "dQw4w9WgXcQ")
          (Except.ok (some { url := some "https://cdn/x.mp3" }))) =
      [Part0.ytmp3free none (Except.ok none),
       Part0.alternativeService (some "dQw4w9WgXcQ")
         (Except.ok (some { url := some "https://cdn/x.mp3" }))] ∧
    (Part0.getMP3InfoAttempts (Part0.ytmp3free none (Except.ok none))
        (Part0.alternativeService (some "dQw4w9WgXcQ")
          (Except.ok (some { url := some "https://cdn/x.mp3" })))).filter
        (fun r => !r.status) =
      [Part0.ytmp3free none (Except.ok none)] :=
  claim_C3_fallback_success _ _ (by decide) (by decide)

/-! ## C1 — behaviour when every strategy fails

The claim asserts an aggregate failure carrying one reason per attempted
strategy.  The code (`src/unnamed/part_000` lines 134–145) overwrites the
primary's failed result with the alternative's result and returns only the
latter, so the primary's reason is discarded (only a fixed console line is
logged). -/

/-- C1 counterexample: with both strategies failing for different concrete
reasons, the resolver's result carries only the alternative's single reason,
not one reason per attempted strategy (two were attempted). -/
theorem claim_C1_counterexample_single_reason :
    Part0.getMP3Info (Part0.ytmp3free (some "dQw4w9WgXcQ") (Except.ok none))
        (Part0.alternativeService (some "dQw4w9WgXcQ") (Except.ok (some { url := none }))) =
      Part0.alternativeService (some "dQw4w9WgXcQ") (Except.ok (some { url := none })) ∧
    (Part0.getMP3InfoAttempts (Part0.ytmp3free (some "dQw4w9WgXcQ") (Except.ok none))
        (Part0.alternativeService (some "dQw4w9WgXcQ")
          (Except.ok (some { url := none })))).length = 2 ∧
    failureReasons (Part0.getMP3Info
        (Part0.ytmp3free (some "dQw4w9WgXcQ") (Except.ok none))
        (Part0.alternativeService (some "dQw4w9WgXcQ")
          (Except.ok (some { url := none })))) = ["Alternative service failed"] ∧
    ¬ failureReasons (Part0.getMP3Info
        (Part0.ytmp3free (some "dQw4w9WgXcQ") (Except.ok none))
        (Part0.alternativeService (some "dQw4w9WgXcQ")
          (Except.ok (some { url := none })))) =
      ["No data received from service", "Alternative service failed"] := by
  decide

/-- C1 as amended: when every strategy fails, the resolver returns the last
attempted strategy's failure result — never a partial success (`status` is
false) — carrying only that last strategy's reasons; both strategies are
attempted in order, but the earlier failure reasons are discarded. -/
theorem claim_C1_all_fail_last_reason_only (r1 r2 : MP3Result)
    (h1 : r1.status = false) (h2 : r2.status = false) :
    Part0.getMP3Info r1 r2 = r2 ∧
    (Part0.getMP3Info r1 r2).status = false ∧
    failureReasons (Part0.getMP3Info r1 r2) = failureReasons r2 ∧
    Part0.getMP3InfoAttempts r1 r2 = [r1, r2] := by
  refine ⟨?_, ?_, ?_, ?_⟩ <;>
    simp [Part0.getMP3Info, Part0.getMP3InfoAttempts, h1, h2]

/-- Witness for the amended C1 at concrete failing strategy results. -/
theorem claim_C1_all_fail_last_reason_only_witness :
    Part0.getMP3Info (Part0.ytmp3free (some "dQw4w9WgXcQ") (Except.error "timeout"))
        (Part0.alternativeService (some "dQw4w9WgXcQ") (Except.error "refused")) =
      Part0.alternativeService (some "dQw4w9WgXcQ") (Except.error "refused") ∧
    (Part0.getMP3Info (Part0.ytmp3free (some "dQw4w9WgXcQ") (Except.error "timeout"))
        (Part0.alternativeService (some "dQw4w9WgXcQ") (Except.error "refused"))).status = false ∧
    failureReasons (Part0.getMP3Info
        (Part0.ytmp3free (some "dQw4w9WgXcQ") (Except.error "timeout"))
        (Part0.alternativeService (some "dQw4w9WgXcQ") (Except.error "refused"))) =
      failureReasons (Part0.alternativeService (some "dQw4w9WgXcQ")
        (Except.error "refused")) ∧
    Part0.getMP3InfoAttempts
        (Part0.ytmp3free (some "dQw4w9WgXcQ") (Except.error "timeout"))
        (Part0.alternativeService (some "dQw4w9WgXcQ") (Except.error "refused")) =
      [Part0.ytmp3free (some "dQw4w9WgXcQ") (Except.error "timeout"),
       Part0.alternativeService (some "dQw4w9WgXcQ") (Except.error "refused")] :=
  claim_C1_all_fail_last_reason_only _ _ (by decide) (by decide)

/-! ## C4 — success implies non-empty title and MP3 link -/

lemma truthyStr_ytv (t : String) : truthyStr ("YouTube Video " ++ t) = true := by
  obtain ⟨l⟩ := t
  rfl

/-- C4: for each of the three audio strategy normalizers (`ytmp3free` and
`alternativeService` of part_000 and the index.js `ytmp3free` variant),
`status = true` implies the `title` and `mp3` fields are present and
non-empty. -/
theorem claim_C4_success_nonempty_fields (v : Option String)
    (u1 : Except String (Option RawData)) (u2 : Except String (Option AltRaw))
    (u3 : Except String (Option RawData)) :
    ((Part0.ytmp3free v u1).status = true →
      truthyOpt (Part0.ytmp3free v u1).title = true ∧
      truthyOpt (Part0.ytmp3free v u1).mp3 = true) ∧
    ((Part0.alternativeService v u2).status = true →
      truthyOpt (Part0.alternativeService v u2).title = true ∧
      truthyOpt (Part0.alternativeService v u2).mp3 = true) ∧
    ((Idx.ytmp3free u3).status = true →
      truthyOpt (Idx.ytmp3free u3).title = true ∧
      truthyOpt (Idx.ytmp3free u3).mp3 = true) := by
  refine ⟨?_, ?_, ?_⟩
  · intro h
    cases v with
    | none => simp [Part0.ytmp3free] at h
    | some vid =>
      cases u1 with
      | error e => simp [Part0.ytmp3free] at h
      | ok data? =>
        cases data? with
        | none => simp [Part0.ytmp3free] at h
        | some d =>
          cases hg : (truthyOpt d.title && truthyOpt d.link) with
          | false => simp [Part0.ytmp3free, hg] at h
          | true =>
            have hgl := hg
            rw [Bool.and_eq_true] at hgl
            simp [Part0.ytmp3free, hg, hgl.1, hgl.2]
  · intro h
    cases u2 with
    | error e => simp [Part0.alternativeService] at h
    | ok data? =>
      cases data? with
      | none => simp [Part0.alternativeService] at h
      | some d =>
        obtain ⟨u⟩ := d
        cases u with
        | none => simp [Part0.alternativeService, truthyOpt] at h
        | some s =>
          cases hs : truthyStr s with
          | false => simp [Part0.alternativeService, truthyOpt, hs] at h
          | true => simp [Part0.alternativeService, truthyOpt, hs, truthyStr_ytv]
  · intro h
    cases u3 with
    | error e => simp [Idx.ytmp3free] at h
    | ok data? =>
      cases data? with
      | none => simp [Idx.ytmp3free] at h
      | some d =>
        cases hg : (truthyOpt d.title && truthyOpt d.link) with
        | false => simp [Idx.ytmp3free, hg] at h
        | true =>
          have hgl := hg
          rw [Bool.and_eq_true] at hgl
          simp [Idx.ytmp3free, hg, hgl.1, hgl.2]

/-- Witness for C4 at concrete successful upstream responses. -/
theorem claim_C4_success_nonempty_fields_witness :
    (truthyOpt (Part0.ytmp3free (some "dQw4w9WgXcQ")
        (Except.ok (some { title := some "T", link := some "https://a/x.mp3" }))).title = true ∧
      truthyOpt (Part0.ytmp3free (some "dQw4w9WgXcQ")
        (Except.ok (some { title := some "T", link := some "https://a/x.mp3" }))).mp3 = true) ∧
    (truthyOpt (Part0.alternativeService (some "dQw4w9WgXcQ")
        (Except.ok (some { url := some "https://b/y.mp3" }))).title = true ∧
      truthyOpt (Part0.alternativeService (some "dQw4w9WgXcQ")
        (Except.ok (some { url := some "https://b/y.mp3" }))).mp3 = true) ∧
    (truthyOpt (Idx.ytmp3free
        (Except.ok (some { title := some "T", link := some "https://c/z.mp3" }))).title = true ∧
      truthyOpt (Idx.ytmp3free
        (Except.ok (some { title := some "T", link := some "https://c/z.mp3" }))).mp3 = true) := by
  have h := claim_C4_success_nonempty_fields (some "dQw4w9WgXcQ")
    (Except.ok (some { title := some "T", link := some "https://a/x.mp3" }))
    (Except.ok (some { url := some "https://b/y.mp3" }))
    (Except.ok (some { title := some "T", link := some "https://c/z.mp3" }))
  exact ⟨h.1 (by decide), h.2.1 (by decide), h.2.2 (by decide)⟩

/-! ## C5 — missing URL field forces a non-success result -/

/-- C5: for each normalizer, a raw upstream response whose required
playable/download URL field (`link` resp. `url`) is absent or empty yields a
non-success result, regardless of every other field. -/
theorem claim_C5_missing_url_fails (v : Option String) (d1 d3 : RawData)
    (d2 : AltRaw) (h1 : truthyOpt d1.link = false)
    (h2 : truthyOpt d2.url = false) (h3 : truthyOpt d3.link = false) :
    (Part0.ytmp3free v (Except.ok (some d1))).status = false ∧
    (Part0.alternativeService v (Except.ok (some d2))).status = false ∧
    (Idx.ytmp3free (Except.ok (some d3))).status = false := by
  refine ⟨?_, ?_, ?_⟩
  · cases v with
    | none => rfl
    | some vid => simp [Part0.ytmp3free, h1]
  · simp [Part0.alternativeService, h2]
  · simp [Idx.ytmp3free, h3]

/-- Witness for C5: responses with every other field present but no URL. -/
theorem claim_C5_missing_url_fails_witness :
    (Part0.ytmp3free (some "dQw4w9WgXcQ") (Except.ok (some
      { title := some "T", img := some "i.jpg", duration := some "03:00" }))).status = false ∧
    (Part0.alternativeService (some "dQw4w9WgXcQ")
      (Except.ok (some { url := some "" }))).status = false ∧
    (Idx.ytmp3free (Except.ok (some
      { title := some "T", img := some "i.jpg" }))).status = false :=
  claim_C5_missing_url_fails (some "dQw4w9WgXcQ")
    { title := some "T", img := some "i.jpg", duration := some "03:00" }
    { title := some "T", img := some "i.jpg" } { url := some "" }
    (by decide) (by decide) (by decide)

/-! ## Helper lemmas for the video-id matchers

The universal statements quantify over an arbitrary identifier `ID` drawn
from the id character class; the lemmas below evaluate each matcher on
`"<concrete prefix>" ++ ID` symbolically. -/

lemma b1AfterFirst_class_none :
    ∀ (l : List Char), (∀ c ∈ l, ytIdChar c = true) → b1AfterFirst l = none := by
  intro l
  induction l with
  | nil => intro _; rfl
  | cons c rest ih =>
    intro h
    have hc := (ytIdChar_facts (h c (List.mem_cons_self c rest))).1
    simp only [b1AfterFirst, hc, if_false, Bool.false_eq_true]
    exact ih (fun x hx => h x (List.mem_cons_of_mem c hx))

lemma dotStarSlash_class_nil :
    ∀ (l : List Char), (∀ c ∈ l, ytIdChar c = true) → dotStarSlashCands l = [] := by
  intro l
  induction l with
  | nil => intro _; rfl
  | cons c rest ih =>
    intro h
    have hfacts := ytIdChar_facts (h c (List.mem_cons_self c rest))
    simp only [dotStarSlashCands, hfacts.1, hfacts.2.2.2.1, if_false,
      Bool.false_eq_true]
    exact ih (fun x hx => h x (List.mem_cons_of_mem c hx))

lemma dotPlusSlash_class_nil (l : List Char)
    (h : ∀ c ∈ l, ytIdChar c = true) : dotPlusSlashCands l = [] := by
  cases l with
  | nil => rfl
  | cons c rest =>
    have hfacts := ytIdChar_facts (h c (List.mem_cons_self c rest))
    simp only [dotPlusSlashCands, hfacts.2.2.2.1, if_false, Bool.false_eq_true]
    exact dotStarSlash_class_nil rest (fun x hx => h x (List.mem_cons_of_mem c hx))

lemma qvStrip_none {c : Char} (l : List Char) (h1 : ('?' == c) = false)
    (h2 : ('&' == c) = false) : qvStrip (c :: l) = none := by
  simp [qvStrip, stripPfx?, h1, h2]

lemma b3candidates_class_nil :
    ∀ (l : List Char), (∀ c ∈ l, ytIdChar c = true) → b3candidates l = [] := by
  intro l
  induction l with
  | nil => intro _; rfl
  | cons c rest ih =>
    intro h
    have hfacts := ytIdChar_facts (h c (List.mem_cons_self c rest))
    have hqv := qvStrip_none rest hfacts.2.1 hfacts.2.2.1
    simp only [b3candidates, hqv, hfacts.2.2.2.1, if_false, Bool.false_eq_true,
      List.append_nil]
    exact ih (fun x hx => h x (List.mem_cons_of_mem c hx))

lemma b3_skip_pre (pre : List Char)
    (hpre : ∀ c ∈ pre, isLineTerm c = false ∧ ('?' == c) = false ∧ ('&' == c) = false) :
    ∀ l : List Char, b3candidates (pre ++ l) = b3candidates l := by
  induction pre with
  | nil => intro l; rfl
  | cons c rest ih =>
    intro l
    have hc := hpre c (List.mem_cons_self c rest)
    have hqv := qvStrip_none (rest ++ l) hc.2.1 hc.2.2
    rw [List.cons_append]
    simp only [b3candidates, hqv, hc.1, if_false, Bool.false_eq_true,
      List.append_nil]
    exact ih (fun x hx => hpre x (List.mem_cons_of_mem c hx)) l

lemma b3_qv_part (l : List Char) :
    b3candidates ("?v=".data ++ l) = b3candidates l ++ [l] := by
  have h : b3candidates ("?v=".data ++ l) =
      ((b3candidates l ++ []) ++ []) ++ [l] := rfl
  rw [h]
  simp

lemma p0Cap_some {l : List Char} (h11 : 11 ≤ l.length)
    (hcls : ∀ c ∈ l, ytIdChar c = true) : p0Cap l = some (l.take 11) := by
  have hall : (l.take 11).all p0CapChar = true := by
    rw [List.all_eq_true]
    intro c hc
    exact (ytIdChar_facts (hcls c (List.take_subset 11 l hc))).2.2.2.2
  have hcond : (decide (11 ≤ l.length) && (l.take 11).all p0CapChar) = true := by
    rw [Bool.and_eq_true]
    exact ⟨decide_eq_true h11, hall⟩
  simp [p0Cap, hcond]

lemma ytCap_some {l : List Char} (h11 : 11 ≤ l.length)
    (hcls : ∀ c ∈ l, ytIdChar c = true) : ytCap l = some (l.take 11) := by
  have hall : (l.take 11).all ytIdChar = true := by
    rw [List.all_eq_true]
    intro c hc
    exact hcls c (List.take_subset 11 l hc)
  have hcond : (decide (11 ≤ l.length) && (l.take 11).all ytIdChar) = true := by
    rw [Bool.and_eq_true]
    exact ⟨decide_eq_true h11, hall⟩
  simp [ytCap, hcond]

lemma ivTail_true {l : List Char} (h11 : 11 ≤ l.length)
    (hcls : ∀ c ∈ l, ytIdChar c = true) : ivTail l = true := by
  have hall : (l.take 11).all ytIdChar = true := by
    rw [List.all_eq_true]
    intro c hc
    exact hcls c (List.take_subset 11 l hc)
  rw [ivTail, Bool.and_eq_true]
  exact ⟨decide_eq_true h11, hall⟩

lemma ytTryAt_class_none (l : List Char)
    (hcls : ∀ c ∈ l, ytIdChar c = true) : ytTryAt l = none := by
  have hdot : ∀ {pat r : List Char}, '.' ∈ pat → stripPfx? pat l = some r → False := by
    intro pat r hdotmem hs
    have hl := stripPfx?_some hs
    have hm : '.' ∈ l := by
      rw [hl]
      exact List.mem_append_left _ hdotmem
    exact absurd (hcls '.' hm) (by decide)
  have h1 : stripPfx? "youtube.com/watch?v=".data l = none := by
    cases hs : stripPfx? "youtube.com/watch?v=".data l with
    | none => rfl
    | some r => exact (hdot (by decide) hs).elim
  have h2 : stripPfx? "youtu.be/".data l = none := by
    cases hs : stripPfx? "youtu.be/".data l with
    | none => rfl
    | some r => exact (hdot (by decide) hs).elim
  simp [ytTryAt, ytCandidates, h1, h2, firstSome]

lemma ytScan_class_none :
    ∀ (l : List Char), (∀ c ∈ l, ytIdChar c = true) → ytScan l = none := by
  intro l
  induction l with
  | nil => intro _; rfl
  | cons c rest ih =>
    intro h
    rw [show ytScan (c :: rest) = (match ytTryAt (c :: rest) with
        | some v => some v
        | none => ytScan rest) from rfl, ytTryAt_class_none (c :: rest) h]
    exact ih (fun x hx => h x (List.mem_cons_of_mem c hx))

lemma p0Scan_cons_some {c : Char} {l v : List Char}
    (h : p0TryAt (c :: l) = some v) : p0Scan (c :: l) = some v := by
  rw [show p0Scan (c :: l) = (match p0TryAt (c :: l) with
      | some x => some x
      | none => p0Scan l) from rfl, h]

lemma ytScan_cons_some {c : Char} {l v : List Char}
    (h : ytTryAt (c :: l) = some v) : ytScan (c :: l) = some v := by
  rw [show ytScan (c :: l) = (match ytTryAt (c :: l) with
      | some x => some x
      | none => ytScan l) from rfl, h]

/-! ## Master lemmas: each matcher on each canonical URL shape -/

lemma p0Scan_watch {ID : List Char} (h11 : 11 ≤ ID.length)
    (hcls : ∀ c ∈ ID, ytIdChar c = true) :
    p0Scan ("https://www.youtube.com/watch?v=".data ++ ID) = some (ID.take 11) := by
  have hb1x : b1ScanX ("watch?v=".data ++ ID) = b1AfterFirst ID := rfl
  have hb1 : b1candidates ("watch?v=".data ++ ID) = [] := by
    rw [show b1candidates ("watch?v=".data ++ ID) =
        (match b1ScanX ("watch?v=".data ++ ID) with
         | some r => dotPlusSlashCands r
         | none => []) from rfl, hb1x, b1AfterFirst_class_none ID hcls]
  have hb2 : b2candidates ("watch?v=".data ++ ID) = [] := rfl
  have hb3 : b3candidates ("watch?v=".data ++ ID) = [ID] := by
    rw [show "watch?v=".data ++ ID = "watch".data ++ ("?v=".data ++ ID) from rfl,
      b3_skip_pre "watch".data (by decide) ("?v=".data ++ ID), b3_qv_part,
      b3candidates_class_nil ID hcls]
    rfl
  have hstrip1 : stripPfx? "youtube.com/".data
      ("youtube.com/watch?v=".data ++ ID) = some ("watch?v=".data ++ ID) := rfl
  have hstrip2 : stripPfx? "youtu.be/".data
      ("youtube.com/watch?v=".data ++ ID) = none := rfl
  have hcand : p0candidates ("youtube.com/watch?v=".data ++ ID) = [ID] := by
    simp only [p0candidates, hstrip1, hstrip2, hb1, hb2, hb3, List.nil_append,
      List.append_nil]
  have htry : p0TryAt ("youtube.com/watch?v=".data ++ ID) = some (ID.take 11) := by
    rw [show p0TryAt ("youtube.com/watch?v=".data ++ ID) =
        firstSome p0Cap (p0candidates ("youtube.com/watch?v=".data ++ ID)) from rfl,
      hcand]
    simp [firstSome, p0Cap_some h11 hcls]
  have hskip : p0Scan ("https://www.youtube.com/watch?v=".data ++ ID) =
      p0Scan ("youtube.com/watch?v=".data ++ ID) := rfl
  rw [hskip]
  exact p0Scan_cons_some htry

lemma p0Scan_short {ID : List Char} (h11 : 11 ≤ ID.length)
    (hcls : ∀ c ∈ ID, ytIdChar c = true) :
    p0Scan ("https://youtu.be/".data ++ ID) = some (ID.take 11) := by
  have hcand : p0candidates ("youtu.be/".data ++ ID) = [ID] := rfl
  have htry : p0TryAt ("youtu.be/".data ++ ID) = some (ID.take 11) := by
    rw [show p0TryAt ("youtu.be/".data ++ ID) =
        firstSome p0Cap (p0candidates ("youtu.be/".data ++ ID)) from rfl, hcand]
    simp [firstSome, p0Cap_some h11 hcls]
  have hskip : p0Scan ("https://youtu.be/".data ++ ID) =
      p0Scan ("youtu.be/".data ++ ID) := rfl
  rw [hskip]
  exact p0Scan_cons_some htry

lemma p0Scan_embed {ID : List Char} (h11 : 11 ≤ ID.length)
    (hcls : ∀ c ∈ ID, ytIdChar c = true) :
    p0Scan ("https://www.youtube.com/embed/".data ++ ID) = some (ID.take 11) := by
  have hb1 : b1candidates ("embed/".data ++ ID) = [] := by
    rw [show b1candidates ("embed/".data ++ ID) = dotPlusSlashCands ID from rfl,
      dotPlusSlash_class_nil ID hcls]
  have hb2 : b2candidates ("embed/".data ++ ID) = [ID] := rfl
  have hb3 : b3candidates ("embed/".data ++ ID) = [] := by
    rw [b3_skip_pre "embed/".data (by decide) ID, b3candidates_class_nil ID hcls]
  have hstrip1 : stripPfx? "youtube.com/".data
      ("youtube.com/embed/".data ++ ID) = some ("embed/".data ++ ID) := rfl
  have hstrip2 : stripPfx? "youtu.be/".data
      ("youtube.com/embed/".data ++ ID) = none := rfl
  have hcand : p0candidates ("youtube.com/embed/".data ++ ID) = [ID] := by
    simp only [p0candidates, hstrip1, hstrip2, hb1, hb2, hb3, List.nil_append,
      List.append_nil]
  have htry : p0TryAt ("youtube.com/embed/".data ++ ID) = some (ID.take 11) := by
    rw [show p0TryAt ("youtube.com/embed/".data ++ ID) =
        firstSome p0Cap (p0candidates ("youtube.com/embed/".data ++ ID)) from rfl,
      hcand]
    simp [firstSome, p0Cap_some h11 hcls]
  have hskip : p0Scan ("https://www.youtube.com/embed/".data ++ ID) =
      p0Scan ("youtube.com/embed/".data ++ ID) := rfl
  rw [hskip]
  exact p0Scan_cons_some htry

lemma ytScan_watch {ID : List Char} (h11 : 11 ≤ ID.length)
    (hcls : ∀ c ∈ ID, ytIdChar c = true) :
    ytScan ("https://www.youtube.com/watch?v=".data ++ ID) = some (ID.take 11) := by
  have hcand : ytCandidates ("youtube.com/watch?v=".data ++ ID) = [ID] := rfl
  have htry : ytTryAt ("youtube.com/watch?v=".data ++ ID) = some (ID.take 11) := by
    rw [show ytTryAt ("youtube.com/watch?v=".data ++ ID) =
        firstSome ytCap (ytCandidates ("youtube.com/watch?v=".data ++ ID)) from rfl,
      hcand]
    simp [firstSome, ytCap_some h11 hcls]
  have hskip : ytScan ("https://www.youtube.com/watch?v=".data ++ ID) =
      ytScan ("youtube.com/watch?v=".data ++ ID) := rfl
  rw [hskip]
  exact ytScan_cons_some htry

lemma ytScan_short {ID : List Char} (h11 : 11 ≤ ID.length)
    (hcls : ∀ c ∈ ID, ytIdChar c = true) :
    ytScan ("https://youtu.be/".data ++ ID) = some (ID.take 11) := by
  have hcand : ytCandidates ("youtu.be/".data ++ ID) = [ID] := rfl
  have htry : ytTryAt ("youtu.be/".data ++ ID) = some (ID.take 11) := by
    rw [show ytTryAt ("youtu.be/".data ++ ID) =
        firstSome ytCap (ytCandidates ("youtu.be/".data ++ ID)) from rfl, hcand]
    simp [firstSome, ytCap_some h11 hcls]
  have hskip : ytScan ("https://youtu.be/".data ++ ID) =
      ytScan ("youtu.be/".data ++ ID) := rfl
  rw [hskip]
  exact ytScan_cons_some htry

lemma ytScan_embed_none {ID : List Char}
    (hcls : ∀ c ∈ ID, ytIdChar c = true) :
    ytScan ("https://www.youtube.com/embed/".data ++ ID) = none := by
  have hskip : ytScan ("https://www.youtube.com/embed/".data ++ ID) =
      ytScan ID := rfl
  rw [hskip]
  exact ytScan_class_none ID hcls

lemma ivMatches_watch {ID : List Char} (h11 : 11 ≤ ID.length)
    (hcls : ∀ c ∈ ID, ytIdChar c = true) :
    ivMatches ("https://www.youtube.com/watch?v=".data ++ ID) = true := by
  have hl : (((ivAfterScheme ("https://www.youtube.com/watch?v=".data ++ ID)).flatMap
      ivAfterWww).flatMap ivAfterHost) = [ID] := rfl
  rw [show ivMatches ("https://www.youtube.com/watch?v=".data ++ ID) =
      ((((ivAfterScheme ("https://www.youtube.com/watch?v=".data ++ ID)).flatMap
        ivAfterWww).flatMap ivAfterHost).any ivTail) from rfl, hl]
  simp [ivTail_true h11 hcls]

lemma ivMatches_short {ID : List Char} (h11 : 11 ≤ ID.length)
    (hcls : ∀ c ∈ ID, ytIdChar c = true) :
    ivMatches ("https://youtu.be/".data ++ ID) = true := by
  have hl : (((ivAfterScheme ("https://youtu.be/".data ++ ID)).flatMap
      ivAfterWww).flatMap ivAfterHost) = [ID] := rfl
  rw [show ivMatches ("https://youtu.be/".data ++ ID) =
      ((((ivAfterScheme ("https://youtu.be/".data ++ ID)).flatMap
        ivAfterWww).flatMap ivAfterHost).any ivTail) from rfl, hl]
  simp [ivTail_true h11 hcls]

/-! ## C2 — the three canonical URL shapes -/

/-- C2 counterexample: the `src/api/ytmp3.js` classifier (both
`isValidYouTubeUrl` and `extractVideoId`) and the identical `src/index.js`
`youtubeRegex` reject the canonical `embed/` shape, although the
`src/unnamed/part_000` `extractVideoId` classifies it; so classification of
all three shapes does not succeed uniformly across the cited classifiers. -/
theorem claim_C2_counterexample_embed_rejected :
    YtApi.isValidYouTubeUrl "https://www.youtube.com/embed/dQw4w9WgXcQ" = false ∧
    Idx.youtubeRegexTest "https://www.youtube.com/embed/dQw4w9WgXcQ" = false ∧
    YtApi.extractVideoId "https://www.youtube.com/embed/dQw4w9WgXcQ" = none ∧
    Part0.extractVideoId "https://www.youtube.com/embed/dQw4w9WgXcQ" =
      some "dQw4w9WgXcQ" := by
  decide

/-- C2 as amended: for every 11-character identifier from `[A-Za-z0-9_-]`,
part_000's `extractVideoId` classifies all three canonical shapes
(`watch?v=`, `youtu.be/`, `embed/`) to the same identifier, and the
`ytmp3.js`/`index.js` classifier agrees on the `watch?v=` and `youtu.be/`
shapes but rejects the `embed/` shape. -/
theorem claim_C2_shapes_same_id (ID : List Char) (hlen : ID.length = 11)
    (hcls : ∀ c ∈ ID, ytIdChar c = true) :
    Part0.extractVideoId ("https://www.youtube.com/watch?v=" ++ String.mk ID) =
      some (String.mk ID) ∧
    Part0.extractVideoId ("https://youtu.be/" ++ String.mk ID) =
      some (String.mk ID) ∧
    Part0.extractVideoId ("https://www.youtube.com/embed/" ++ String.mk ID) =
      some (String.mk ID) ∧
    YtApi.extractVideoId ("https://www.youtube.com/watch?v=" ++ String.mk ID) =
      some (String.mk ID) ∧
    YtApi.extractVideoId ("https://youtu.be/" ++ String.mk ID) =
      some (String.mk ID) ∧
    YtApi.isValidYouTubeUrl ("https://www.youtube.com/watch?v=" ++ String.mk ID) =
      true ∧
    YtApi.isValidYouTubeUrl ("https://youtu.be/" ++ String.mk ID) = true ∧
    YtApi.extractVideoId ("https://www.youtube.com/embed/" ++ String.mk ID) =
      none ∧
    YtApi.isValidYouTubeUrl ("https://www.youtube.com/embed/" ++ String.mk ID) =
      false ∧
    Idx.youtubeRegexTest ("https://www.youtube.com/embed/" ++ String.mk ID) =
      false := by
  have h11 : 11 ≤ ID.length := le_of_eq hlen.symm
  have htake : ID.take 11 = ID := by
    rw [← hlen]
    exact List.take_length ID
  refine ⟨?_, ?_, ?_, ?_, ?_, ?_, ?_, ?_, rfl, rfl⟩
  · rw [show Part0.extractVideoId ("https://www.youtube.com/watch?v=" ++ String.mk ID) =
      (p0Scan ("https://www.youtube.com/watch?v=".data ++ ID)).map
        (fun l => String.mk l) from rfl, p0Scan_watch h11 hcls, htake]
    rfl
  · rw [show Part0.extractVideoId ("https://youtu.be/" ++ String.mk ID) =
      (p0Scan ("https://youtu.be/".data ++ ID)).map
        (fun l => String.mk l) from rfl, p0Scan_short h11 hcls, htake]
    rfl
  · rw [show Part0.extractVideoId ("https://www.youtube.com/embed/" ++ String.mk ID) =
      (p0Scan ("https://www.youtube.com/embed/".data ++ ID)).map
        (fun l => String.mk l) from rfl, p0Scan_embed h11 hcls, htake]
    rfl
  · rw [show YtApi.extractVideoId ("https://www.youtube.com/watch?v=" ++ String.mk ID) =
      (ytScan ("https://www.youtube.com/watch?v=".data ++ ID)).map
        (fun l => String.mk l) from rfl, ytScan_watch h11 hcls, htake]
    rfl
  · rw [show YtApi.extractVideoId ("https://youtu.be/" ++ String.mk ID) =
      (ytScan ("https://youtu.be/".data ++ ID)).map
        (fun l => String.mk l) from rfl, ytScan_short h11 hcls, htake]
    rfl
  · rw [show YtApi.isValidYouTubeUrl ("https://www.youtube.com/watch?v=" ++ String.mk ID) =
      ivMatches ("https://www.youtube.com/watch?v=".data ++ ID) from rfl]
    exact ivMatches_watch h11 hcls
  · rw [show YtApi.isValidYouTubeUrl ("https://youtu.be/" ++ String.mk ID) =
      ivMatches ("https://youtu.be/".data ++ ID) from rfl]
    exact ivMatches_short h11 hcls
  · rw [show YtApi.extractVideoId ("https://www.youtube.com/embed/" ++ String.mk ID) =
      (ytScan ("https://www.youtube.com/embed/".data ++ ID)).map
        (fun l => String.mk l) from rfl, ytScan_embed_none hcls]
    rfl

/-- Witness for the amended C2 at the concrete identifier `dQw4w9WgXcQ`. -/
theorem claim_C2_shapes_same_id_witness :
    Part0.extractVideoId ("https://www.youtube.com/watch?v=" ++
      String.mk "dQw4w9WgXcQ".data) = some (String.mk "dQw4w9WgXcQ".data) ∧
    Part0.extractVideoId ("https://youtu.be/" ++ String.mk "dQw4w9WgXcQ".data) =
      some (String.mk "dQw4w9WgXcQ".data) ∧
    Part0.extractVideoId ("https://www.youtube.com/embed/" ++
      String.mk "dQw4w9WgXcQ".data) = some (String.mk "dQw4w9WgXcQ".data) ∧
    YtApi.extractVideoId ("https://www.youtube.com/watch?v=" ++
      String.mk "dQw4w9WgXcQ".data) = some (String.mk "dQw4w9WgXcQ".data) ∧
    YtApi.extractVideoId ("https://youtu.be/" ++ String.mk "dQw4w9WgXcQ".data) =
      some (String.mk "dQw4w9WgXcQ".data) ∧
    YtApi.isValidYouTubeUrl ("https://www.youtube.com/watch?v=" ++
      String.mk "dQw4w9WgXcQ".data) = true ∧
    YtApi.isValidYouTubeUrl ("https://youtu.be/" ++
      String.mk "dQw4w9WgXcQ".data) = true ∧
    YtApi.extractVideoId ("https://www.youtube.com/embed/" ++
      String.mk "dQw4w9WgXcQ".data) = none ∧
    YtApi.isValidYouTubeUrl ("https://www.youtube.com/embed/" ++
      String.mk "dQw4w9WgXcQ".data) = false ∧
    Idx.youtubeRegexTest ("https://www.youtube.com/embed/" ++
      String.mk "dQw4w9WgXcQ".data) = false :=
  claim_C2_shapes_same_id "dQw4w9WgXcQ".data (by decide) (by decide)

/-! ## C10 — over-long identifiers are truncated, not rejected -/

/-- C10: for every identifier segment longer than 11 characters drawn from
`[A-Za-z0-9_-]` after `watch?v=` or `youtu.be/`, validation still accepts the
URL and both `extractVideoId` implementations extract exactly the first 11
characters — over-long identifiers are not rejected. -/
theorem claim_C10_overlong_id_truncated (ID : List Char) (hlen : 11 < ID.length)
    (hcls : ∀ c ∈ ID, ytIdChar c = true) :
    YtApi.isValidYouTubeUrl ("https://www.youtube.com/watch?v=" ++ String.mk ID) =
      true ∧
    YtApi.isValidYouTubeUrl ("https://youtu.be/" ++ String.mk ID) = true ∧
    YtApi.extractVideoId ("https://www.youtube.com/watch?v=" ++ String.mk ID) =
      some (String.mk (ID.take 11)) ∧
    YtApi.extractVideoId ("https://youtu.be/" ++ String.mk ID) =
      some (String.mk (ID.take 11)) ∧
    Part0.extractVideoId ("https://www.youtube.com/watch?v=" ++ String.mk ID) =
      some (String.mk (ID.take 11)) ∧
    Part0.extractVideoId ("https://youtu.be/" ++ String.mk ID) =
      some (String.mk (ID.take 11)) := by
  have h11 : 11 ≤ ID.length := le_of_lt hlen
  refine ⟨?_, ?_, ?_, ?_, ?_, ?_⟩
  · rw [show YtApi.isValidYouTubeUrl ("https://www.youtube.com/watch?v=" ++ String.mk ID) =
      ivMatches ("https://www.youtube.com/watch?v=".data ++ ID) from rfl]
    exact ivMatches_watch h11 hcls
  · rw [show YtApi.isValidYouTubeUrl ("https://youtu.be/" ++ String.mk ID) =
      ivMatches ("https://youtu.be/".data ++ ID) from rfl]
    exact ivMatches_short h11 hcls
  · rw [show YtApi.extractVideoId ("https://www.youtube.com/watch?v=" ++ String.mk ID) =
      (ytScan ("https://www.youtube.com/watch?v=".data ++ ID)).map
        (fun l => String.mk l) from rfl, ytScan_watch h11 hcls]
    rfl
  · rw [show YtApi.extractVideoId ("https://youtu.be/" ++ String.mk ID) =
      (ytScan ("https://youtu.be/".data ++ ID)).map
        (fun l => String.mk l) from rfl, ytScan_short h11 hcls]
    rfl
  · rw [show Part0.extractVideoId ("https://www.youtube.com/watch?v=" ++ String.mk ID) =
      (p0Scan ("https://www.youtube.com/watch?v=".data ++ ID)).map
        (fun l => String.mk l) from rfl, p0Scan_watch h11 hcls]
    rfl
  · rw [show Part0.extractVideoId ("https://youtu.be/" ++ String.mk ID) =
      (p0Scan ("https://youtu.be/".data ++ ID)).map
        (fun l => String.mk l) from rfl, p0Scan_short h11 hcls]
    rfl

/-- Witness for C10 at the 14-character identifier segment
`dQw4w9WgXcQ123` (extraction yields its first 11 characters). -/
theorem claim_C10_overlong_id_truncated_witness :
    YtApi.isValidYouTubeUrl ("https://www.youtube.com/watch?v=" ++
      String.mk "dQw4w9WgXcQ123".data) = true ∧
    YtApi.isValidYouTubeUrl ("https://youtu.be/" ++
      String.mk "dQw4w9WgXcQ123".data) = true ∧
    YtApi.extractVideoId ("https://www.youtube.com/watch?v=" ++
      String.mk "dQw4w9WgXcQ123".data) =
      some (String.mk ("dQw4w9WgXcQ123".data.take 11)) ∧
    YtApi.extractVideoId ("https://youtu.be/" ++
      String.mk "dQw4w9WgXcQ123".data) =
      some (String.mk ("dQw4w9WgXcQ123".data.take 11)) ∧
    Part0.extractVideoId ("https://www.youtube.com/watch?v=" ++
      String.mk "dQw4w9WgXcQ123".data) =
      some (String.mk ("dQw4w9WgXcQ123".data.take 11)) ∧
    Part0.extractVideoId ("https://youtu.be/" ++
      String.mk "dQw4w9WgXcQ123".data) =
      some (String.mk ("dQw4w9WgXcQ123".data.take 11)) :=
  claim_C10_overlong_id_truncated "dQw4w9WgXcQ123".data (by decide) (by decide)

/-! ## C6 — secondary-pass link mining threshold -/

/-- C6 counterexample: a document whose primary pass yields zero blocks and
whose one hyperlink carries the content-path marker `/movie/` with visible
text of length exactly 5 produces no extracted block at all (the code
requires `text.length > 5`, i.e. at least 6), refuting the `length ≥ 5`
threshold of the claim. -/
theorem claim_C6_counterexample_length_five :
    Catalog.primaryPass ([] : List SearchBlock) = [] ∧
    jsIncludes "/movie/" "/movie/abc" = true ∧
    utf16Len (jsTrim "Abcde") = 5 ∧
    Catalog.searchMoviesTagged ⟨[], [⟨some "/movie/abc", "Abcde"⟩]⟩ = [] := by
  decide

/-- C6 as amended: when the primary pass yields zero blocks and some
hyperlink's target contains `/movie/` with trimmed visible text strictly
longer than 5 UTF-16 units (at least 6), the secondary pass contributes at
least one extracted block, and the blocks of the result are marked with low
confidence. -/
theorem claim_C6_secondary_pass_low_confidence (doc : SearchDoc) (a : Anchor)
    (h : String) (hprim : Catalog.primaryPass doc.blocks = [])
    (hmem : a ∈ doc.anchors) (hhref : a.href = some h)
    (hmov : jsIncludes "/movie/" h = true)
    (hlen : 5 < utf16Len (jsTrim a.text)) :
    ∃ p ∈ Catalog.searchMoviesTagged doc, p.2 = Confidence.low := by
  have htr : truthyStr h = true := by
    cases hd : h.data with
    | nil =>
      rw [show jsIncludes "/movie/" h = inclScan "/movie/".data h.data from rfl,
        hd] at hmov
      exact absurd hmov (by decide)
    | cons c cs => simp [truthyStr, hd]
  have httr : truthyStr (jsTrim a.text) = true := by
    cases hd : (jsTrim a.text).data with
    | nil =>
      have h0 : utf16Len (jsTrim a.text) = 0 := by
        rw [show utf16Len (jsTrim a.text) = (jsTrim a.text).data.foldl
          (fun n c => n + (if c.toNat < 0x10000 then 1 else 2)) 0 from rfl, hd]
        rfl
      omega
    | cons c cs => simp [truthyStr, hd]
  have hsec : ({ title := jsTrim a.text
                 link := if jsStartsWith "http" h then h else Catalog.baseUrl ++ h
                 image := none
                 description := ""
                 year := Catalog.extractYear (jsTrim a.text) } : Movie) ∈
      Catalog.secondaryPass doc.anchors := by
    apply List.mem_filterMap.mpr
    refine ⟨a, hmem, ?_⟩
    simp [hhref, htr, httr, hmov, decide_eq_true hlen]
  refine ⟨({ title := jsTrim a.text
             link := if jsStartsWith "http" h then h else Catalog.baseUrl ++ h
             image := none
             description := ""
             year := Catalog.extractYear (jsTrim a.text) }, Confidence.low),
    ?_, rfl⟩
  simp only [Catalog.searchMoviesTagged, hprim, List.isEmpty_nil, if_true]
  exact List.mem_map_of_mem _ hsec

/-- Witness for the amended C6: one 6-character link in an otherwise empty
document yields a low-confidence block. -/
theorem claim_C6_secondary_pass_low_confidence_witness :
    ∃ p ∈ Catalog.searchMoviesTagged ⟨[], [⟨some "/movie/abc", "Abcdef"⟩]⟩,
      p.2 = Confidence.low :=
  claim_C6_secondary_pass_low_confidence ⟨[], [⟨some "/movie/abc", "Abcdef"⟩]⟩
    ⟨some "/movie/abc", "Abcdef"⟩ "/movie/abc" (by decide) (by decide)
    (by decide) (by decide) (by decide)

/-! ## C8 — download links are not de-duplicated -/

/-- C8 counterexample: two identical qualifying anchors yield two
`downloadLinks` entries with the same url — the code performs no
de-duplication by url. -/
theorem claim_C8_counterexample_duplicate_urls :
    ((Catalog.extractDownloadLinks
        [⟨some "https://drive.google.com/x", "download"⟩,
         ⟨some "https://drive.google.com/x", "download"⟩]).map
        (fun l => l.url)) =
      ["https://drive.google.com/x", "https://drive.google.com/x"] ∧
    ¬ ((Catalog.extractDownloadLinks
        [⟨some "https://drive.google.com/x", "download"⟩,
         ⟨some "https://drive.google.com/x", "download"⟩]).map
        (fun l => l.url)).Nodup := by
  decide

lemma linkEntry?_isSome_eq_qualifies (a : Anchor) :
    (Catalog.linkEntry? a).isSome = Catalog.linkQualifies a := by
  cases ha : a.href with
  | none => simp [Catalog.linkEntry?, Catalog.linkQualifies, ha]
  | some href =>
    cases hc : (truthyStr href &&
        Catalog.linkQualCond (jsToLower (jsTrim a.text)) href) with
    | true => simp [Catalog.linkEntry?, Catalog.linkQualifies, ha, hc]
    | false => simp [Catalog.linkEntry?, Catalog.linkQualifies, ha, hc]

lemma downloadLinks_length (anchors : List Anchor) :
    (Catalog.extractDownloadLinks anchors).length =
      (anchors.filter Catalog.linkQualifies).length := by
  induction anchors with
  | nil => rfl
  | cons a rest ih =>
    rw [show Catalog.extractDownloadLinks (a :: rest) =
      (a :: rest).filterMap Catalog.linkEntry? from rfl, List.filterMap_cons,
      List.filter_cons]
    cases he : Catalog.linkEntry? a with
    | none =>
      have hq : Catalog.linkQualifies a = false := by
        rw [← linkEntry?_isSome_eq_qualifies, he]
        rfl
      simp only [hq, Bool.false_eq_true, if_false]
      exact ih
    | some entry =>
      have hq : Catalog.linkQualifies a = true := by
        rw [← linkEntry?_isSome_eq_qualifies, he]
        rfl
      simp only [hq, if_true, List.length_cons]
      exact congrArg (fun n => n + 1) ih

lemma classifyLinkType_mem_enum (text url : String) :
    Catalog.classifyLinkType text url = "google_drive" ∨
    Catalog.classifyLinkType text url = "mega" ∨
    Catalog.classifyLinkType text url = "mediafire" ∨
    Catalog.classifyLinkType text url = "dropbox" ∨
    Catalog.classifyLinkType text url = "stream" ∨
    Catalog.classifyLinkType text url = "download" := by
  unfold Catalog.classifyLinkType
  split_ifs <;> simp

lemma downloadLinks_type_mem (anchors : List Anchor) :
    ∀ l ∈ Catalog.extractDownloadLinks anchors,
      l.type = "google_drive" ∨ l.type = "mega" ∨ l.type = "mediafire" ∨
      l.type = "dropbox" ∨ l.type = "stream" ∨ l.type = "download" := by
  intro l hl
  obtain ⟨a, ha, hfa⟩ := List.mem_filterMap.mp hl
  cases hh : a.href with
  | none =>
    rw [show Catalog.linkEntry? a = (match a.href with
        | none => none
        | some href =>
          let text := jsToLower (jsTrim a.text)
          if truthyStr href && Catalog.linkQualCond text href then
            some { provider := if truthyStr text then text else "Download",
                   url := href,
                   type := Catalog.classifyLinkType text href }
          else none) from rfl, hh] at hfa
    exact absurd hfa (by simp)
  | some href =>
    rw [show Catalog.linkEntry? a = (match a.href with
        | none => none
        | some href =>
          let text := jsToLower (jsTrim a.text)
          if truthyStr href && Catalog.linkQualCond text href then
            some { provider := if truthyStr text then text else "Download",
                   url := href,
                   type := Catalog.classifyLinkType text href }
          else none) from rfl, hh] at hfa
    simp only at hfa
    split at hfa
    · have hx := Option.some.inj hfa
      rw [← hx]
      exact classifyLinkType_mem_enum _ _
    · exact absurd hfa (by simp)

/-- C8 as amended: `downloadLinks` holds one entry per qualifying hyperlink
in document order with no de-duplication by url (duplicate qualifying
anchors yield duplicate urls, as the counterexample shows), and every
entry's link type belongs to the fixed enumeration. -/
theorem claim_C8_one_link_per_qualifying_anchor (anchors : List Anchor) :
    (Catalog.extractDownloadLinks anchors).length =
      (anchors.filter Catalog.linkQualifies).length ∧
    ∀ l ∈ Catalog.extractDownloadLinks anchors,
      l.type = "google_drive" ∨ l.type = "mega" ∨ l.type = "mediafire" ∨
      l.type = "dropbox" ∨ l.type = "stream" ∨ l.type = "download" :=
  ⟨downloadLinks_length anchors, downloadLinks_type_mem anchors⟩

/-- Witness for the amended C8 at one concrete anchor (host precedence:
`mega.nz` in the url beats `watch` in the text). -/
theorem claim_C8_one_link_per_qualifying_anchor_witness :
    (Catalog.extractDownloadLinks [⟨some "https://mega.nz/f", "Watch Now"⟩]).length =
      ([(⟨some "https://mega.nz/f", "Watch Now"⟩ : Anchor)].filter
        Catalog.linkQualifies).length ∧
    (({ provider := "watch now", url := "https://mega.nz/f", type := "mega" } :
        Catalog.DownloadLink).type = "google_drive" ∨
      ({ provider := "watch now", url := "https://mega.nz/f", type := "mega" } :
        Catalog.DownloadLink).type = "mega" ∨
      ({ provider := "watch now", url := "https://mega.nz/f", type := "mega" } :
        Catalog.DownloadLink).type = "mediafire" ∨
      ({ provider := "watch now", url := "https://mega.nz/f", type := "mega" } :
        Catalog.DownloadLink).type = "dropbox" ∨
      ({ provider := "watch now", url := "https://mega.nz/f", type := "mega" } :
        Catalog.DownloadLink).type = "stream" ∨
      ({ provider := "watch now", url := "https://mega.nz/f", type := "mega" } :
        Catalog.DownloadLink).type = "download") := by
  have hc := claim_C8_one_link_per_qualifying_anchor
    [⟨some "https://mega.nz/f", "Watch Now"⟩]
  exact ⟨hc.1, hc.2 _ (by decide)⟩
